import Mathlib

/-!
Verification of the firehose-rs request/response layer.

The hand-written constructor and trait code is translated from
src/firehose_v2/request.rs.  The protobuf-generated message types
(SingleBlockRequest, Request, Response and the oneof Reference) are not
part of the checked-in sources; their shape and defaults are modelled
from the specification (spec.md §3, §4.2) and the doc comments of
src/lib.rs.
-/

namespace Firehose

/-- Modelled from the spec: an opaque transform / field-mask payload
(google.protobuf.Any in the wire format); this layer never interprets it. -/
structure ProtoAny where
  typeUrl : String
  value : List Nat
  deriving Repr, DecidableEq

/-- Modelled from the spec: the by-number block reference, a 64-bit
unsigned block number (single_block_request.BlockNumber). -/
structure BlockNumber where
  num : Nat
  deriving Repr, DecidableEq

/-- Modelled from the spec: the by-hash-and-number block reference, a
string hash (opaque, not validated by this layer) plus a 64-bit unsigned
block number (single_block_request.BlockHashAndNumber). -/
structure BlockHashAndNumber where
  hash : String
  num : Nat
  deriving Repr, DecidableEq

/-- Modelled from the spec: the by-cursor block reference, an opaque
resumption token previously returned by the stream
(single_block_request.Cursor). -/
structure CursorRef where
  cursor : String
  deriving Repr, DecidableEq

/-- Modelled from the spec: the request-side block reference union
(single_block_request.Reference): exactly one of by-number,
by-hash-and-number, or by-cursor. -/
inductive Reference where
  | blockNumber : BlockNumber → Reference
  | blockHashAndNumber : BlockHashAndNumber → Reference
  | cursor : CursorRef → Reference
  deriving Repr, DecidableEq

/-- Modelled from the spec: a single-block lookup request.  The reference
union is one of several optional fields plus a discriminant in the wire
shape, modelled as an optional sum type; the remaining field is the opaque
transforms payload. -/
structure SingleBlockRequest where
  transforms : List ProtoAny
  reference : Option Reference
  deriving Repr, DecidableEq

/-- Modelled from the spec: the default-constructed single-block request
has no reference variant selected and no transforms. -/
def SingleBlockRequest.default : SingleBlockRequest :=
  { transforms := [], reference := none }

/-- Translated from SingleBlockRequest::new_by_block_number in
src/firehose_v2/request.rs lines 23-28: populate the by-number reference,
every other field from Default. -/
def SingleBlockRequest.new_by_block_number (num : Nat) : SingleBlockRequest :=
  { SingleBlockRequest.default with
      reference := some (Reference.blockNumber { num := num }) }

/-- Translated from SingleBlockRequest::new in src/firehose_v2/request.rs
lines 18-20: the backwards-compatible entry point delegates to
new_by_block_number. -/
def SingleBlockRequest.new (num : Nat) : SingleBlockRequest :=
  SingleBlockRequest.new_by_block_number num

/-- Translated from SingleBlockRequest::new_by_block_hash_and_number in
src/firehose_v2/request.rs lines 31-39: populate the hash-and-number
reference with the unmodified hash string and number, every other field
from Default. -/
def SingleBlockRequest.new_by_block_hash_and_number (hash : String) (num : Nat) :
    SingleBlockRequest :=
  { SingleBlockRequest.default with
      reference := some (Reference.blockHashAndNumber { hash := hash, num := num }) }

/-- Does the request populate the by-number variant of the reference union? -/
def SingleBlockRequest.hasByNumber (r : SingleBlockRequest) : Bool :=
  match r.reference with
  | some (Reference.blockNumber _) => true
  | _ => false

/-- Does the request populate the by-hash-and-number variant of the
reference union? -/
def SingleBlockRequest.hasByHashAndNumber (r : SingleBlockRequest) : Bool :=
  match r.reference with
  | some (Reference.blockHashAndNumber _) => true
  | _ => false

/-- Does the request populate the by-cursor variant of the reference union? -/
def SingleBlockRequest.hasByCursor (r : SingleBlockRequest) : Bool :=
  match r.reference with
  | some (Reference.cursor _) => true
  | _ => false

/-- Number of reference variants populated in the request: the wire shape
is one-of-several optional fields, so we count the populated ones. -/
def SingleBlockRequest.populatedCount (r : SingleBlockRequest) : Nat :=
  (if r.hasByNumber then 1 else 0) +
  (if r.hasByHashAndNumber then 1 else 0) +
  (if r.hasByCursor then 1 else 0)

/-- Modelled from the spec: the streaming range request, with start block
number (int64 in the wire format), resumption cursor, stop block number
(0 = unbounded), finality filter, and opaque transforms. -/
structure Request where
  start_block_num : Int
  cursor : String
  stop_block_num : Nat
  final_blocks_only : Bool
  transforms : List ProtoAny
  deriving Repr, DecidableEq

/-- Modelled from the spec: the default-constructed streaming request:
start=0, stop=0 (unbounded), cursor empty, finality filter disabled. -/
def Request.default : Request :=
  { start_block_num := 0
    cursor := ""
    stop_block_num := 0
    final_blocks_only := false
    transforms := [] }

/-- Modelled from the spec: streaming requests are constructed by setting
fields directly on a default-initialized value; this is the builder step
that sets both a start block number and a resumption cursor.  No check,
validation or rewrite is performed. -/
def Request.withStartAndCursor (start : Int) (c : String) : Request :=
  { Request.default with start_block_num := start, cursor := c }

/-- Modelled from the spec: the fork-transition tag of a streamed
response: New (append), Undo (retract due to reorg), Final (now
irreversible). -/
inductive ForkStep where
  | stepNew : ForkStep
  | stepUndo : ForkStep
  | stepFinal : ForkStep
  deriving Repr, DecidableEq

/-- Modelled from the spec: optional denormalized metadata of a streamed
response (number, hash, timestamp) usable without decoding the payload. -/
structure BlockMetadata where
  num : Nat
  id : String
  time : Nat
  deriving Repr, DecidableEq

/-- Modelled from the spec: a streamed response unit: opaque payload, a
fork-transition tag, a resumption cursor, and optional metadata. -/
structure Response where
  block : Option ProtoAny
  step : ForkStep
  cursor : String
  metadata : Option BlockMetadata
  deriving Repr, DecidableEq

/-- Translated from the FromResponse trait in src/firehose_v2/request.rs
lines 146-163: an implementation of the conversion contract for a domain
type T bundles an error type rendering (the Display bound on
Self.Error) and the conversion itself, a function from a Response to a
Result, here Except E T.  In this embedding every implementation is a
total function, the shape the trait signature imposes. -/
structure FromResponseInst (T : Type) (E : Type) where
  displayError : E → String
  from_response : Response → Except E T

end Firehose

namespace Firehose

/-- Modelled from the spec: server-side stream resumption, which is not
part of the checked-in sources (the transport collaborator owns it).
Following §4.4 and §8 of the spec, re-issuing a streaming request whose
cursor is the cursor of response Rk makes the server replay the stream
from Rk onward (at-least-once semantics at the cursor boundary): the
delivered sequence is the suffix of the original sequence starting at the
position the cursor names. -/
def resumeFromCursor (rs : List Response) (c : String) : List Response :=
  match rs.findIdx? (fun r => r.cursor == c) with
  | some k => rs.drop k
  | none => []

/-- Sample stream of three responses with distinct cursors, used to
evaluate the resumption contract on a concrete input. -/
def sampleResponses : List Response :=
  [ { block := none, step := ForkStep.stepNew, cursor := "c0", metadata := none }
  , { block := none, step := ForkStep.stepNew, cursor := "c1", metadata := none }
  , { block := none, step := ForkStep.stepFinal, cursor := "c2", metadata := none } ]

end Firehose

namespace Firehose

/-- C1: for every num, SingleBlockRequest.new num and
SingleBlockRequest.new_by_block_number num produce observably equal
requests: they are structurally equal, the by-number reference is
populated with value num, and every other field agrees. -/
theorem new_eq_new_by_block_number (num : Nat) :
    SingleBlockRequest.new num = SingleBlockRequest.new_by_block_number num ∧
    (SingleBlockRequest.new num).reference =
      some (Reference.blockNumber { num := num }) ∧
    (SingleBlockRequest.new num).transforms =
      (SingleBlockRequest.new_by_block_number num).transforms :=
  ⟨rfl, rfl, rfl⟩

/-- C2: for every num, new_by_block_number num populates the by-number
reference with exactly num, neither the hash-and-number nor the cursor
variant is populated, and in particular new_by_block_number 12345 yields
the by-number reference carrying 12345. -/
theorem new_by_block_number_reference (num : Nat) :
    (SingleBlockRequest.new_by_block_number num).reference =
      some (Reference.blockNumber { num := num }) ∧
    (SingleBlockRequest.new_by_block_number num).hasByHashAndNumber = false ∧
    (SingleBlockRequest.new_by_block_number num).hasByCursor = false ∧
    (SingleBlockRequest.new_by_block_number 12345).reference =
      some (Reference.blockNumber { num := 12345 }) :=
  ⟨rfl, rfl, rfl, rfl⟩

/-- C3: for every hash and num, new_by_block_hash_and_number hash num
populates the hash-and-number reference with exactly that unmodified hash
string and that number, and neither the by-number nor the by-cursor
variant is populated. -/
theorem new_by_block_hash_and_number_reference (hash : String) (num : Nat) :
    (SingleBlockRequest.new_by_block_hash_and_number hash num).reference =
      some (Reference.blockHashAndNumber { hash := hash, num := num }) ∧
    (SingleBlockRequest.new_by_block_hash_and_number hash num).hasByNumber = false ∧
    (SingleBlockRequest.new_by_block_hash_and_number hash num).hasByCursor = false :=
  ⟨rfl, rfl, rfl⟩

/-- C4: every single-block request built by new, new_by_block_number or
new_by_block_hash_and_number has exactly one reference variant populated,
and the default-constructed request has no reference variant selected. -/
theorem constructors_populate_exactly_one (num : Nat) (hash : String) :
    (SingleBlockRequest.new num).populatedCount = 1 ∧
    (SingleBlockRequest.new_by_block_number num).populatedCount = 1 ∧
    (SingleBlockRequest.new_by_block_hash_and_number hash num).populatedCount = 1 ∧
    SingleBlockRequest.default.populatedCount = 0 ∧
    SingleBlockRequest.default.reference = none :=
  ⟨rfl, rfl, rfl, rfl, rfl⟩

/-- C5: a default-constructed streaming Request has start block number 0,
stop_block_num 0 (unbounded), an empty cursor, and the finality filter
disabled. -/
theorem default_request_fields :
    Request.default.start_block_num = 0 ∧
    Request.default.stop_block_num = 0 ∧
    Request.default.cursor = "" ∧
    Request.default.final_blocks_only = false :=
  ⟨rfl, rfl, rfl, rfl⟩

/-- C6: for every non-zero start block number and non-empty cursor,
constructing a streaming Request carrying both succeeds and no operation
of this layer rejects, validates or alters it: the built request carries
exactly the given start and cursor and leaves every other field at its
default. -/
theorem cursor_and_start_accepted (start : Int) (c : String)
    (hstart : start ≠ 0) (hc : c ≠ "") :
    (Request.withStartAndCursor start c).start_block_num = start ∧
    (Request.withStartAndCursor start c).cursor = c ∧
    (Request.withStartAndCursor start c).stop_block_num =
      Request.default.stop_block_num ∧
    (Request.withStartAndCursor start c).final_blocks_only =
      Request.default.final_blocks_only ∧
    (Request.withStartAndCursor start c).transforms =
      Request.default.transforms :=
  ⟨rfl, rfl, rfl, rfl, rfl⟩

/-- Witness for C6 at start 5 and cursor abc. -/
theorem cursor_and_start_accepted_witness :
    (5 : Int) ≠ 0 ∧ "abc" ≠ "" ∧
    ((Request.withStartAndCursor 5 "abc").start_block_num = 5 ∧
     (Request.withStartAndCursor 5 "abc").cursor = "abc" ∧
     (Request.withStartAndCursor 5 "abc").stop_block_num =
       Request.default.stop_block_num ∧
     (Request.withStartAndCursor 5 "abc").final_blocks_only =
       Request.default.final_blocks_only ∧
     (Request.withStartAndCursor 5 "abc").transforms =
       Request.default.transforms) :=
  ⟨by decide, by decide, cursor_and_start_accepted 5 "abc" (by decide) (by decide)⟩

/-- C7: for every conversion-contract implementation for a domain type T
with error type E and every Response msg, from_response msg is a Result
value: it is either a success carrying a T or the error case carrying an
E (which the implementation can display), and the conversion, being a
total function in this embedding, never aborts. -/
theorem from_response_total {T E : Type} (inst : FromResponseInst T E)
    (msg : Response) :
    (∃ t, inst.from_response msg = Except.ok t) ∨
    (∃ e, inst.from_response msg = Except.error e ∧
      inst.displayError e = inst.displayError e) := by
  cases h : inst.from_response msg with
  | ok t => exact Or.inl ⟨t, rfl⟩
  | error e => exact Or.inr ⟨e, rfl, rfl⟩

/-- C8: if response Rk is the one a cursor c names in the stream R0..Rn
(c is first matched at index k), then re-issuing the streaming request
with cursor c yields exactly the suffix of the stream starting at Rk: a
suffix of the original sequence starting at or before Rk+1, whose head is
the redelivered Rk (at-least-once at the boundary) and whose second
element is Rk+1, so Rk+1 is never skipped. -/
theorem resume_from_cursor_suffix (rs : List Response) (c : String) (k : Nat)
    (h : rs.findIdx? (fun r => r.cursor == c) = some k) :
    resumeFromCursor rs c = rs.drop k ∧
    List.IsSuffix (resumeFromCursor rs c) rs ∧
    (resumeFromCursor rs c).head? = rs[k]? ∧
    (resumeFromCursor rs c)[1]? = rs[k + 1]? := by
  have hr : resumeFromCursor rs c = rs.drop k := by
    unfold resumeFromCursor
    rw [h]
  refine ⟨hr, ?_, ?_, ?_⟩
  · rw [hr]
    exact List.drop_suffix k rs
  · rw [hr]
    exact List.head?_drop rs k
  · rw [hr]
    rw [List.getElem?_drop]

/-- Witness for C8 on the sample stream, resuming at the cursor of its
second response. -/
theorem resume_from_cursor_suffix_witness :
    resumeFromCursor sampleResponses "c1" = sampleResponses.drop 1 ∧
    List.IsSuffix (resumeFromCursor sampleResponses "c1") sampleResponses ∧
    (resumeFromCursor sampleResponses "c1").head? = sampleResponses[1]? ∧
    (resumeFromCursor sampleResponses "c1")[1]? = sampleResponses[2]? :=
  resume_from_cursor_suffix sampleResponses "c1" 1 (by decide)

/-- C9: each constructor changes only the reference field: the transforms
field, the only other field of a single-block request, equals its value
in the default-constructed request, for every input. -/
theorem constructors_frame (num : Nat) (hash : String) :
    (SingleBlockRequest.new num).transforms =
      SingleBlockRequest.default.transforms ∧
    (SingleBlockRequest.new_by_block_number num).transforms =
      SingleBlockRequest.default.transforms ∧
    (SingleBlockRequest.new_by_block_hash_and_number hash num).transforms =
      SingleBlockRequest.default.transforms :=
  ⟨rfl, rfl, rfl⟩

/-- C10: new_by_block_number 0 populates the by-number reference with 0
and is not equal to the default-constructed request, whose reference is
unset: block number zero is a valid reference, not an unset sentinel. -/
theorem block_number_zero_not_default :
    (SingleBlockRequest.new_by_block_number 0).reference =
      some (Reference.blockNumber { num := 0 }) ∧
    SingleBlockRequest.new_by_block_number 0 ≠ SingleBlockRequest.default :=
  ⟨rfl, by decide⟩

end Firehose
